import Mathlib

/-!
Formal model of the evaluation engine of `nekro_github_analyzer`
(`src/scorer.py`, `src/evaluator.py`, `src/utils.py`, `src/models.py`).

Modelling conventions:
* Python `float` arithmetic is modelled exactly over `ℚ` where only field
  operations occur (scorer dimensions `code_quality` and `activity`, the
  collector's derived ratios), and over `ℝ` where `math.log10` occurs
  (dimension `community_health`).
* Python `int` counters are `ℕ`; UTC timestamps are `ℤ` seconds since epoch;
  `timedelta.days` is floor division by 86400 (`Int.fdiv`).
* Python's built-in `round(x, 1)` rounds half to even (`roundTo1` below).
* An operation that can raise (`x / 0`, `math.log10` of a non-positive
  number) is modelled in the checked variants by an `Option` result,
  `none` meaning the exception propagates.
-/

/-- Round half to even of `x` to an integer: the behaviour of Python's
built-in `round` function (banker's rounding). -/
def rndHE {α : Type} [LinearOrderedField α] [FloorRing α] (x : α) : ℤ :=
  if x - ⌊x⌋ < 1/2 then ⌊x⌋
  else if (1 : α)/2 < x - ⌊x⌋ then ⌊x⌋ + 1
  else if ⌊x⌋ % 2 = 0 then ⌊x⌋ else ⌊x⌋ + 1

/-- Python's `round(x, 1)`: round half to even at one decimal place. -/
def roundTo1 {α : Type} [LinearOrderedField α] [FloorRing α] (x : α) : α :=
  (rndHE (10 * x) : α) / 10

theorem rndHE_nonneg {α : Type} [LinearOrderedField α] [FloorRing α]
    {x : α} (hx : 0 ≤ x) : 0 ≤ rndHE x := by
  have hfl : (0 : ℤ) ≤ ⌊x⌋ := by
    have := Int.floor_le_floor (α := α) hx
    simpa using this
  unfold rndHE
  split_ifs <;> omega

theorem rndHE_le {α : Type} [LinearOrderedField α] [FloorRing α]
    {x : α} {m : ℤ} (h : x ≤ (m : α)) : rndHE x ≤ m := by
  have hfl : ⌊x⌋ ≤ m := by
    have := Int.floor_le_floor (α := α) h
    simpa using this
  unfold rndHE
  split_ifs with h1 h2 h3
  · exact hfl
  · -- the fractional part is strictly positive, so `⌊x⌋ < x ≤ m`
    have hx : (⌊x⌋ : α) < x := by
      have : (0 : α) < x - ⌊x⌋ := lt_trans (by norm_num) h2
      linarith
    have : (⌊x⌋ : α) < (m : α) := lt_of_lt_of_le hx h
    have : ⌊x⌋ < m := by exact_mod_cast this
    omega
  · exact hfl
  · -- exact half: `x = ⌊x⌋ + 1/2 ≤ m` forces `⌊x⌋ < m`
    have hhalf : x - ⌊x⌋ = 1/2 := le_antisymm (not_lt.mp h2) (not_lt.mp h1)
    have hx : (⌊x⌋ : α) < x := by
      have : x = (⌊x⌋ : α) + 1/2 := by linarith
      rw [this]; norm_num
    have : (⌊x⌋ : α) < (m : α) := lt_of_lt_of_le hx h
    have : ⌊x⌋ < m := by exact_mod_cast this
    omega

theorem roundTo1_nonneg {α : Type} [LinearOrderedField α] [FloorRing α]
    {x : α} (hx : 0 ≤ x) : 0 ≤ roundTo1 x := by
  unfold roundTo1
  have h10 : (0 : α) ≤ 10 * x := by positivity
  have := rndHE_nonneg h10
  have hcast : (0 : α) ≤ (rndHE (10 * x) : α) := by exact_mod_cast this
  positivity

theorem roundTo1_le {α : Type} [LinearOrderedField α] [FloorRing α]
    {x : α} {m : ℤ} (h : x ≤ (m : α)) : roundTo1 x ≤ (m : α) := by
  unfold roundTo1
  have h10 : 10 * x ≤ ((10 * m : ℤ) : α) := by push_cast; linarith
  have := rndHE_le h10
  have hcast : (rndHE (10 * x) : α) ≤ ((10 * m : ℤ) : α) := by exact_mod_cast this
  rw [div_le_iff₀ (by norm_num : (0:α) < 10)]
  push_cast at hcast ⊢
  linarith

/-! ## Data model (`src/models.py`)

`ProjectEvaluationData` is the MetricsRecord produced by the collector and
consumed by the scorer.  Counters are `ℕ`, timestamps are parsed UTC epoch
seconds (`ℤ`), float-valued derived fields are `ℚ`.  The presentational
`details` dictionary of `DimensionScore` (human-readable judgement strings)
is omitted from the model; every branch that fills it also sets the numeric
fields modelled here. -/

structure ProjectEvaluationData where
  owner : String
  repo : String
  full_name : String
  description : Option String
  url : String
  created_at : ℤ
  updated_at : ℤ
  has_readme : Bool
  readme_length : ℕ
  has_license : Bool
  license_name : Option String
  has_contributing : Bool
  has_code_of_conduct : Bool
  primary_language : Option String
  language_count : ℕ
  language_distribution : List (String × ℚ)
  has_standard_dirs : Bool
  protected_branches : ℕ
  release_count : ℕ
  releases_last_year : ℕ
  open_issues : ℕ
  closed_issues : ℕ
  issue_comments_total : ℕ
  issue_comments_avg : ℚ
  total_prs : ℕ
  merged_prs : ℕ
  pr_comments_total : ℕ
  pr_comment_density : ℚ
  stars : ℕ
  forks : ℕ
  contributors : ℕ
  age_in_days : ℤ
  maintained_for_years : ℚ
  commits_confidence : String
deriving DecidableEq, Repr

/-- `DimensionScore` (`src/models.py`) for the two dimensions whose float
arithmetic involves only field operations (modelled over `ℚ`). -/
structure DimensionScore where
  score : ℚ
  max_score : ℚ
  percentage : ℚ
  confidence : String
deriving DecidableEq, Repr

/-- `DimensionScore` for the `community_health` dimension, whose arithmetic
involves `math.log10` (modelled over `ℝ`). -/
structure DimensionScoreR where
  score : ℝ
  max_score : ℝ
  percentage : ℝ
  confidence : String

/-- Python string truthiness of an optional string (`if data.primary_language:`
is false both for `None` and for the empty string). -/
def pyTruthyStr : Option String → Bool
  | none => false
  | some s => !(s == "")

/-- `timedelta.days` of a difference of `secs` seconds: floor division. -/
def tdays (secs : ℤ) : ℤ := Int.fdiv secs 86400

/-- `(datetime.now(timezone.utc) - data.updated_at).days` as computed in
`calculate_code_quality` and `calculate_activity` (`src/scorer.py`), with the
current instant passed explicitly as `now`. -/
def daysSinceUpdate (d : ProjectEvaluationData) (now : ℤ) : ℤ :=
  tdays (now - d.updated_at)

/-! ## Scorer (`src/scorer.py`)

Each `score += ...` block of the three `calculate_*` methods is one
definition below; the dimension function sums them in source order and
applies the final clamp/round exactly as the source does. -/

/-- README block of `calculate_code_quality` (scorer.py:43-50). -/
def readmeScore (d : ProjectEvaluationData) : ℚ :=
  if d.has_readme ∧ 500 ≤ d.readme_length then 5
  else if d.has_readme then 3
  else 0

/-- LICENSE block (scorer.py:53-57). -/
def licenseScore (d : ProjectEvaluationData) : ℚ :=
  if d.has_license then 2 else 0

/-- CONTRIBUTING block (scorer.py:60-64). -/
def contributingScore (d : ProjectEvaluationData) : ℚ :=
  if d.has_contributing then 3/2 else 0

/-- CODE_OF_CONDUCT block (scorer.py:67-71). -/
def codeOfConductScore (d : ProjectEvaluationData) : ℚ :=
  if d.has_code_of_conduct then 3/2 else 0

/-- Release-management ladder of `calculate_code_quality` (scorer.py:75-85):
thresholds 6 / 2 / 1 on `releases_last_year`. -/
def releaseMgmtScore (n : ℕ) : ℚ :=
  if 6 ≤ n then 5
  else if 2 ≤ n then 3
  else if 1 ≤ n then 1
  else 0

/-- Last-update ladder of `calculate_code_quality` (scorer.py:90-103), as a
function of `days_since_update`.  (The `except` arm of the source's
`try` is unreachable here: timestamps are modelled already parsed.) -/
def lastUpdateScore (days : ℤ) : ℚ :=
  if days ≤ 30 then 5/2
  else if days ≤ 90 then 3/2
  else if days ≤ 180 then 1/2
  else 0

/-- Branch-protection block (scorer.py:109-114). -/
def branchProtectionScore (d : ProjectEvaluationData) : ℚ :=
  if 0 < d.protected_branches then
    min (5/2) ((d.protected_branches : ℚ) * (1/2))
  else 0

/-- Primary-language block (scorer.py:118-122). -/
def primaryLanguageScore (d : ProjectEvaluationData) : ℚ :=
  if pyTruthyStr d.primary_language then 3 else 0

/-- Language-count ladder (scorer.py:125-135). -/
def languageCountScore (d : ProjectEvaluationData) : ℚ :=
  if 1 ≤ d.language_count ∧ d.language_count ≤ 5 then 4
  else if 5 < d.language_count ∧ d.language_count ≤ 10 then 2
  else if 10 < d.language_count then 0
  else 0

/-- Code-structure block (scorer.py:138-145). -/
def codeStructureScore (d : ProjectEvaluationData) : ℚ :=
  if d.has_standard_dirs then 3
  else if pyTruthyStr d.primary_language ∧ 0 < d.language_count then 3/2
  else 0

/-- Accumulated raw score of `calculate_code_quality` before the final
`min`/`round` (scorer.py:37-145). -/
def codeQualityRaw (d : ProjectEvaluationData) (now : ℤ) : ℚ :=
  readmeScore d + licenseScore d + contributingScore d + codeOfConductScore d
    + releaseMgmtScore d.releases_last_year
    + lastUpdateScore (daysSinceUpdate d now)
    + branchProtectionScore d
    + primaryLanguageScore d + languageCountScore d + codeStructureScore d

/-- `ProjectScorer.calculate_code_quality` (scorer.py:29-155). -/
def calculate_code_quality (d : ProjectEvaluationData) (now : ℤ) : DimensionScore :=
  { score := roundTo1 (min 30 (codeQualityRaw d now))
    max_score := 30
    percentage := roundTo1 (min 30 (codeQualityRaw d now) / 30 * 100)
    confidence := "high" }

/-- Release-frequency ladder of `calculate_activity` (scorer.py:170-184):
thresholds 6 / 4 / 2 / 1 on `releases_last_year`. -/
def releaseFreqScore (n : ℕ) : ℚ :=
  if 6 ≤ n then 12
  else if 4 ≤ n then 10
  else if 2 ≤ n then 7
  else if 1 ≤ n then 4
  else 0

/-- Project-freshness ladder of `calculate_activity` (scorer.py:195-209), as
a function of `days_since_update`. -/
def freshnessScore (days : ℤ) : ℚ :=
  if days ≤ 30 then 15
  else if days ≤ 90 then 12
  else if days ≤ 180 then 8
  else if days ≤ 365 then 4
  else 0

/-- Issue-close-rate block (scorer.py:218-224). -/
def issueCloseScore (d : ProjectEvaluationData) : ℚ :=
  if 0 < d.open_issues + d.closed_issues then
    ((d.closed_issues : ℚ) / ((d.open_issues : ℚ) + (d.closed_issues : ℚ))) * (43/10)
  else 0

/-- PR-merge-rate block (scorer.py:227-233). -/
def prMergeScore (d : ProjectEvaluationData) : ℚ :=
  if 0 < d.total_prs then
    ((d.merged_prs : ℚ) / (d.total_prs : ℚ)) * (43/10)
  else 0

/-- Open-issue-health block (scorer.py:237-256), including the special case
for `stars == 0`. -/
def openIssuesHealthScore (d : ProjectEvaluationData) : ℚ :=
  if 0 < d.stars then
    if (d.open_issues : ℚ) / ((max 1 d.stars : ℕ) : ℚ) < 1/100 then 44/10
    else if (d.open_issues : ℚ) / ((max 1 d.stars : ℕ) : ℚ) < 5/100 then 3
    else if (d.open_issues : ℚ) / ((max 1 d.stars : ℕ) : ℚ) < 15/100 then 3/2
    else 0
  else
    if d.open_issues = 0 then 44/10 else 0

/-- Accumulated raw score of `calculate_activity` before the final
`min`/`round` (scorer.py:165-256). -/
def activityRaw (d : ProjectEvaluationData) (now : ℤ) : ℚ :=
  releaseFreqScore d.releases_last_year
    + freshnessScore (daysSinceUpdate d now)
    + issueCloseScore d + prMergeScore d + openIssuesHealthScore d

/-- `ProjectScorer.calculate_activity` (scorer.py:157-266). -/
def calculate_activity (d : ProjectEvaluationData) (now : ℤ) : DimensionScore :=
  { score := roundTo1 (min 40 (activityRaw d now))
    max_score := 40
    percentage := roundTo1 (min 40 (activityRaw d now) / 40 * 100)
    confidence := "high" }

/-- Stars block of `calculate_community_health` (scorer.py:284-289):
logarithmic scoring `min(6, log10(stars+1) * 1.5)`. -/
noncomputable def starsScore (d : ProjectEvaluationData) : ℝ :=
  if 0 < d.stars then min 6 (Real.logb 10 ((d.stars : ℝ) + 1) * (3/2)) else 0

/-- Forks block (scorer.py:292-297): `min(4, log10(forks+1) * 1.2)`. -/
noncomputable def forksScore (d : ProjectEvaluationData) : ℝ :=
  if 0 < d.forks then min 4 (Real.logb 10 ((d.forks : ℝ) + 1) * (6/5)) else 0

/-- Contributors block (scorer.py:300-306): `min(5, log10(c+1) * 1.8)`. -/
noncomputable def contributorsScore (d : ProjectEvaluationData) : ℝ :=
  if 0 < d.contributors then min 5 (Real.logb 10 ((d.contributors : ℝ) + 1) * (9/5)) else 0

/-- Issue-discussion block (scorer.py:310-325). -/
def issueDiscussionScore (d : ProjectEvaluationData) : ℚ :=
  if 0 < d.open_issues + d.closed_issues then
    if 3 ≤ d.issue_comments_avg then 5
    else if 1 ≤ d.issue_comments_avg then 3
    else if 0 < d.issue_comments_avg then 1
    else 0
  else 0

/-- PR-review block (scorer.py:328-344). -/
def prReviewScore (d : ProjectEvaluationData) : ℚ :=
  if 0 < d.total_prs then
    if 8/10 < (d.merged_prs : ℚ) / (d.total_prs : ℚ) ∧ 1 ≤ d.pr_comment_density then 5
    else if 6/10 < (d.merged_prs : ℚ) / (d.total_prs : ℚ) ∧ 1/2 ≤ d.pr_comment_density then 3
    else if 4/10 < (d.merged_prs : ℚ) / (d.total_prs : ℚ) ∨ 0 < d.pr_comment_density then 1
    else 0
  else 0

/-- Project-age block (scorer.py:348-355). -/
def projectAgeScore (d : ProjectEvaluationData) : ℚ :=
  if 365 * 3 ≤ d.age_in_days then 2
  else if 365 ≤ d.age_in_days then 1
  else 0

/-- Star/fork-ratio block (scorer.py:360-374). -/
def starForkRatioScore (d : ProjectEvaluationData) : ℚ :=
  if 0 < d.forks then
    if 3 ≤ (d.stars : ℚ) / (d.forks : ℚ) ∧ (d.stars : ℚ) / (d.forks : ℚ) ≤ 15 then 2
    else if 2 ≤ (d.stars : ℚ) / (d.forks : ℚ) ∧ (d.stars : ℚ) / (d.forks : ℚ) ≤ 20 then 1
    else 0
  else 0

/-- Long-term-maintenance block (scorer.py:377-381). -/
def maintainedScore (d : ProjectEvaluationData) : ℚ :=
  if 2 ≤ d.maintained_for_years then 1 else 0

/-- Accumulated raw score of `calculate_community_health` before the final
`min`/`round` (scorer.py:278-381), summed in source order. -/
noncomputable def communityRaw (d : ProjectEvaluationData) : ℝ :=
  starsScore d + forksScore d + contributorsScore d
    + (issueDiscussionScore d : ℝ) + (prReviewScore d : ℝ)
    + (projectAgeScore d : ℝ) + (starForkRatioScore d : ℝ)
    + (maintainedScore d : ℝ)

/-- `ProjectScorer.calculate_community_health` (scorer.py:268-391). -/
noncomputable def calculate_community_health (d : ProjectEvaluationData) : DimensionScoreR :=
  { score := roundTo1 (min 30 (communityRaw d))
    max_score := 30
    percentage := roundTo1 (min 30 (communityRaw d) / 30 * 100)
    confidence := "high" }

/-- `ProjectScorer.calculate_scores` (scorer.py:14-27): the three dimension
scores, keyed `code_quality`, `activity`, `community_health` in the source
dictionary and positionally here. -/
noncomputable def calculate_scores (d : ProjectEvaluationData) (now : ℤ) :
    DimensionScore × DimensionScore × DimensionScoreR :=
  (calculate_code_quality d now, calculate_activity d now, calculate_community_health d)

/-- `ProjectScorer.get_rating` (scorer.py:393-413). -/
noncomputable def get_rating (total_score : ℝ) : String :=
  if 85 ≤ total_score then "A+ (优秀)"
  else if 75 ≤ total_score then "A (良好)"
  else if 65 ≤ total_score then "B+ (中上)"
  else if 55 ≤ total_score then "B (中等)"
  else if 45 ≤ total_score then "C (一般)"
  else "D (较差)"

/-- `ProjectScorer.generate_recommendation` (scorer.py:474-494). -/
noncomputable def generate_recommendation (total_score : ℝ) : String :=
  if 85 ≤ total_score then "✅ **强烈推荐** - 这是一个高质量、活跃维护的项目，代码质量有保障，社区健康，开发团队响应及时。非常适合在生产环境中使用，也是学习开源项目的优秀案例。"
  else if 75 ≤ total_score then "✅ **推荐使用** - 这是一个良好维护的项目，具有较好的代码质量和社区支持。可以放心在生产环境中使用，但建议关注其更新动态。"
  else if 65 ≤ total_score then "👍 **可以使用** - 这个项目总体不错，但在某些方面（如文档、活跃度或社区规模）还有改进空间。可以使用，但建议对关键功能进行充分测试。"
  else if 55 ≤ total_score then "⚠️ **谨慎使用** - 这个项目有一定的实用价值，但在维护、文档或社区支持方面存在不足。如果使用，建议做好风险评估和备选方案准备。"
  else if 45 ≤ total_score then "❌ **需要评估** - 这个项目可能存在明显的维护问题或其他风险因素。不建议在关键业务中使用，除非有充分的技术支持能力。"
  else "❌ **不推荐** - 这个项目在多个方面存在问题，可能面临维护困难。不建议在生产环境中使用。"

/-- `ProjectScorer.generate_strengths_and_weaknesses` (scorer.py:415-472).
The source interleaves appends to the two lists; each list keeps its own
source append order here. -/
noncomputable def generate_strengths_and_weaknesses (d : ProjectEvaluationData)
    (cq act : DimensionScore) (ch : DimensionScoreR) : List String × List String :=
  ((if 25 ≤ cq.score then ["📚 文档齐全，易于上手和贡献"] else [])
    ++ (if 35 ≤ act.score then ["🔄 持续维护，更新频繁"] else [])
    ++ (if (25 : ℝ) ≤ ch.score then ["👥 社区活跃，贡献者众多"] else [])
    ++ (if 1000 < d.stars then ["⭐ Star 数量充足，用户认可度高"] else [])
    ++ (if 6 ≤ d.releases_last_year then ["🚀 开发活跃，版本发布频繁"] else [])
    ++ (if d.has_license ∧ d.has_contributing then ["✅ 项目管理规范，有明确的贡献指南"] else [])
    ++ (if 85/100 <
          (d.closed_issues : ℚ) / ((max 1 (d.open_issues + d.closed_issues) : ℕ) : ℚ)
        then ["✅ Issue 处理及时，响应良好"] else []),
   (if cq.score < 15 then ["⚠️ 文档或许可证不完整"] else [])
    ++ (if act.score < 20 then ["⚠️ 项目更新不频繁，可能面临维护困难"] else [])
    ++ (if d.closed_issues * 2 < d.open_issues then ["⚠️ Open Issues 数量较多，可能需要加强问题管理"] else [])
    -- `elif` arm of the release check: `n < 2` already excludes `6 ≤ n`
    ++ (if d.releases_last_year < 2 then ["⚠️ 版本发布不频繁，可能维护缓慢"] else [])
    ++ (if ¬d.has_readme ∨ d.readme_length < 300 then ["⚠️ README 可能不够详细"] else []))

/-! ### Checked variants

Python float division raises `ZeroDivisionError` on a zero denominator and
`math.log10` raises on a non-positive argument.  The checked variants below
repeat the source's computations with those two operations returning
`Option`, `none` meaning the exception propagates out of the scorer. -/

/-- Checked `ℚ` division: `none` models `ZeroDivisionError`. -/
def odiv (a b : ℚ) : Option ℚ := if b = 0 then none else some (a / b)

/-- Checked `ℝ` division: `none` models `ZeroDivisionError`. -/
noncomputable def rdiv (a b : ℝ) : Option ℝ := if b = 0 then none else some (a / b)

/-- Checked `math.log10`: `none` models the `ValueError` raised on a
non-positive argument. -/
noncomputable def rlog10 (x : ℝ) : Option ℝ :=
  if 0 < x then some (Real.logb 10 x) else none

/-- Checked issue-close-rate block (scorer.py:218-224). -/
def issueCloseScoreE (d : ProjectEvaluationData) : Option ℚ :=
  if 0 < d.open_issues + d.closed_issues then
    (odiv (d.closed_issues : ℚ) ((d.open_issues : ℚ) + (d.closed_issues : ℚ))).map
      (fun rate => rate * (43/10))
  else some 0

/-- Checked PR-merge-rate block (scorer.py:227-233). -/
def prMergeScoreE (d : ProjectEvaluationData) : Option ℚ :=
  if 0 < d.total_prs then
    (odiv (d.merged_prs : ℚ) (d.total_prs : ℚ)).map (fun rate => rate * (43/10))
  else some 0

/-- Checked open-issue-health block (scorer.py:237-256). -/
def openIssuesHealthScoreE (d : ProjectEvaluationData) : Option ℚ :=
  if 0 < d.stars then
    (odiv (d.open_issues : ℚ) ((max 1 d.stars : ℕ) : ℚ)).map
      (fun r =>
        if r < 1/100 then 44/10
        else if r < 5/100 then 3
        else if r < 15/100 then 3/2
        else 0)
  else some (if d.open_issues = 0 then 44/10 else 0)

/-- Checked `calculate_activity` (scorer.py:157-266): the only operations of
the method that can raise are its three divisions. -/
def calculate_activityE (d : ProjectEvaluationData) (now : ℤ) : Option DimensionScore :=
  (issueCloseScoreE d).bind fun ics =>
  (prMergeScoreE d).bind fun pms =>
  (openIssuesHealthScoreE d).map fun oih =>
    let raw := releaseFreqScore d.releases_last_year
      + freshnessScore (daysSinceUpdate d now) + ics + pms + oih
    { score := roundTo1 (min 40 raw)
      max_score := 40
      percentage := roundTo1 (min 40 raw / 40 * 100)
      confidence := "high" }

/-- Checked stars block (scorer.py:284-289). -/
noncomputable def starsScoreE (d : ProjectEvaluationData) : Option ℝ :=
  if 0 < d.stars then
    (rlog10 ((d.stars : ℝ) + 1)).map (fun l => min 6 (l * (3/2)))
  else some 0

/-- Checked forks block (scorer.py:292-297). -/
noncomputable def forksScoreE (d : ProjectEvaluationData) : Option ℝ :=
  if 0 < d.forks then
    (rlog10 ((d.forks : ℝ) + 1)).map (fun l => min 4 (l * (6/5)))
  else some 0

/-- Checked contributors block (scorer.py:300-306). -/
noncomputable def contributorsScoreE (d : ProjectEvaluationData) : Option ℝ :=
  if 0 < d.contributors then
    (rlog10 ((d.contributors : ℝ) + 1)).map (fun l => min 5 (l * (9/5)))
  else some 0

/-- Checked PR-review block (scorer.py:328-344): its division
`merged_prs / total_prs` is guarded by `total_prs > 0`. -/
def prReviewScoreE (d : ProjectEvaluationData) : Option ℚ :=
  if 0 < d.total_prs then
    (odiv (d.merged_prs : ℚ) (d.total_prs : ℚ)).map (fun mr =>
      if 8/10 < mr ∧ 1 ≤ d.pr_comment_density then 5
      else if 6/10 < mr ∧ 1/2 ≤ d.pr_comment_density then 3
      else if 4/10 < mr ∨ 0 < d.pr_comment_density then 1
      else 0)
  else some 0

/-- Checked star/fork-ratio block (scorer.py:360-374): its division
`stars / forks` is guarded by `forks > 0`. -/
def starForkRatioScoreE (d : ProjectEvaluationData) : Option ℚ :=
  if 0 < d.forks then
    (odiv (d.stars : ℚ) (d.forks : ℚ)).map (fun r =>
      if 3 ≤ r ∧ r ≤ 15 then 2
      else if 2 ≤ r ∧ r ≤ 20 then 1
      else 0)
  else some 0

/-- Checked `calculate_community_health` (scorer.py:268-391): its partial
operations are the three `math.log10` calls and two divisions. -/
noncomputable def calculate_community_healthE (d : ProjectEvaluationData) :
    Option DimensionScoreR :=
  (starsScoreE d).bind fun ss =>
  (forksScoreE d).bind fun fs =>
  (contributorsScoreE d).bind fun cs =>
  (prReviewScoreE d).bind fun prs =>
  (starForkRatioScoreE d).map fun sfr =>
    let raw := ss + fs + cs + (issueDiscussionScore d : ℝ) + (prs : ℝ)
      + (projectAgeScore d : ℝ) + (sfr : ℝ) + (maintainedScore d : ℝ)
    { score := roundTo1 (min 30 raw)
      max_score := 30
      percentage := roundTo1 (min 30 raw / 30 * 100)
      confidence := "high" }

/-- Checked `calculate_scores` (scorer.py:14-27).  `calculate_code_quality`
contains no partial operation, so it appears unchecked. -/
noncomputable def calculate_scoresE (d : ProjectEvaluationData) (now : ℤ) :
    Option (DimensionScore × DimensionScore × DimensionScoreR) :=
  (calculate_activityE d now).bind fun act =>
  (calculate_community_healthE d).map fun ch =>
    (calculate_code_quality d now, act, ch)

/-- Checked `generate_strengths_and_weaknesses` (scorer.py:415-472): its one
division, `closed_issues / max(1, open_issues + closed_issues)`
(scorer.py:469), is evaluated unconditionally. -/
noncomputable def generate_strengths_and_weaknessesE (d : ProjectEvaluationData)
    (cq act : DimensionScore) (ch : DimensionScoreR) :
    Option (List String × List String) :=
  (odiv (d.closed_issues : ℚ) ((max 1 (d.open_issues + d.closed_issues) : ℕ) : ℚ)).map
    (fun _ => generate_strengths_and_weaknesses d cq act ch)

/-! ## Cache (`src/utils.py`, classes `CacheEntry` and `LRUCache`)

The `OrderedDict` is modelled as an association list in recency order:
head = least recently used (first to be evicted by `popitem(last=False)`),
tail = most recently used.  Wall-clock instants (`datetime.now`) are passed
explicitly as `now : ℤ` epoch seconds. -/

/-- `CacheEntry` (utils.py:228-256): value plus creation timestamp and TTL. -/
structure CacheEntry (V : Type) where
  value : V
  timestamp : ℤ
  ttl : ℤ
deriving DecidableEq, Repr

/-- `CacheEntry.is_expired` (utils.py:242-248):
`(now - timestamp) > ttl`, strictly. -/
def CacheEntry.is_expired {V : Type} (e : CacheEntry V) (now : ℤ) : Bool :=
  e.ttl < now - e.timestamp

/-- `LRUCache` state (utils.py:259-278). -/
structure LRUCache (V : Type) where
  max_size : ℕ
  ttl_seconds : ℤ
  cache : List (String × CacheEntry V)
deriving DecidableEq, Repr

/-- `LRUCache` as freshly constructed (utils.py:269-278). -/
def LRUCache.empty (V : Type) (max_size : ℕ) (ttl_seconds : ℤ) : LRUCache V :=
  { max_size := max_size, ttl_seconds := ttl_seconds, cache := [] }

/-- `del self._cache[key]`: remove the (unique) entry with key `k`. -/
def eraseKey {V : Type} (l : List (String × CacheEntry V)) (k : String) :
    List (String × CacheEntry V) :=
  l.eraseP (fun p => p.1 == k)

/-- `LRUCache.get` (utils.py:280-303), returning the optional value together
with the successor state: a missing key leaves the state untouched, an
expired entry is deleted, a live hit is moved to the most-recently-used
position (`move_to_end`). -/
def LRUCache.get {V : Type} (c : LRUCache V) (k : String) (now : ℤ) :
    Option V × LRUCache V :=
  match c.cache.lookup k with
  | none => (none, c)
  | some e =>
    if e.is_expired now then
      (none, { c with cache := eraseKey c.cache k })
    else
      (some e.value, { c with cache := eraseKey c.cache k ++ [(k, e)] })

/-- The `while len(self._cache) > self.max_size: popitem(last=False)` loop of
`LRUCache.set` (utils.py:320-324): drop from the front while over capacity. -/
def evictLRU {V : Type} (m : ℕ) : List (String × CacheEntry V) → List (String × CacheEntry V)
  | [] => []
  | x :: t => if m < (x :: t).length then evictLRU m t else x :: t

/-- `LRUCache.set` (utils.py:305-326): delete any previous entry for the
key, append the fresh entry at the most-recently-used end, then evict from
the least-recently-used end while over capacity. -/
def LRUCache.set {V : Type} (c : LRUCache V) (k : String) (v : V) (now : ℤ) :
    LRUCache V :=
  let l := if (c.cache.lookup k).isSome then eraseKey c.cache k else c.cache
  { c with cache := evictLRU c.max_size (l ++ [(k, ⟨v, now, c.ttl_seconds⟩)]) }

/-- `LRUCache.clear` (utils.py:328-331). -/
def LRUCache.clear {V : Type} (c : LRUCache V) : LRUCache V :=
  { c with cache := [] }

/-- `LRUCache.cleanup_expired` (utils.py:333-347): removes every expired
entry, returning the removed count and the successor state. -/
def LRUCache.cleanup_expired {V : Type} (c : LRUCache V) (now : ℤ) :
    ℕ × LRUCache V :=
  let kept := c.cache.filter (fun p => !(p.2.is_expired now))
  (c.cache.length - kept.length, { c with cache := kept })

/-- `LRUCache.get_stats` (utils.py:349-360).  (`usage_percent` divides by
`max_size`; `ℚ` division by zero yields 0 where Python would raise for a
cache configured with `max_size == 0` — no claim concerns that field.) -/
structure CacheStats where
  size : ℕ
  max_size : ℕ
  ttl_seconds : ℤ
  usage_percent : ℚ
deriving DecidableEq, Repr

/-- `LRUCache.get_stats` (utils.py:349-360). -/
def LRUCache.get_stats {V : Type} (c : LRUCache V) : CacheStats :=
  { size := c.cache.length
    max_size := c.max_size
    ttl_seconds := c.ttl_seconds
    usage_percent := roundTo1 ((c.cache.length : ℚ) / (c.max_size : ℚ) * 100) }

/-! ## Collector (`src/evaluator.py`, `GitHubProjectEvaluator._collect_data`)

The external client's entities carry the fields `_collect_data` reads.
Timestamp strings are modelled already parsed: `none` stands for a missing
or empty string (for releases, also an unparseable or non-UTC one, whose
`except: pass` skips the release).  Each optional facet argument is the
result of `_safe_call` (evaluator.py:452-466): `none` means the call raised
and the `Exception` object was substituted. -/

structure GitHubRepoInfo where
  owner : String
  repo : String
  full_name : String
  url : String
  description : String
  stars : ℕ
  language : Option String
  contributors : ℕ
  issues : ℕ
  forks : ℕ
  created_at : Option ℤ
  updated_at : Option ℤ
deriving DecidableEq, Repr

structure GitHubReadmeInfo where
  content : String
deriving DecidableEq, Repr

structure GitHubLicense where
  name : String
deriving DecidableEq, Repr

structure GitHubCommunityProfile where
  has_contributing : Bool
  has_code_of_conduct : Bool
deriving DecidableEq, Repr

structure GitHubLanguageStats where
  primary_language : Option String
  language_count : ℕ
  language_percentages : List (String × ℚ)
deriving DecidableEq, Repr

structure GitHubTreeItem where
  path : String
  type : String
deriving DecidableEq, Repr

structure GitHubIssue where
  state : String
  comments : ℕ
deriving DecidableEq, Repr

structure GitHubPullRequest where
  merged : Bool
  comments : ℕ
deriving DecidableEq, Repr

structure GitHubRelease where
  published_at : Option ℤ
deriving DecidableEq, Repr

structure GitHubBranch where
  is_protected : Bool
deriving DecidableEq, Repr

/-- The fixed conventional directory-name set (evaluator.py:288). -/
def standard_dirs : List String := ["src", "lib", "tests", "test", "docs", "doc"]

/-- The record assembled by `_collect_data` (evaluator.py:259-450) from the
mandatory `repo_info` and the (possibly failed) optional facet results.
The `readme` argument is `None` both on failure and on a missing README
(evaluator.py:195-199).  `licenseRes`: `none` = call failed,
`some none` = call succeeded with no license, `some (some l)` = license. -/
def mkRecord (ri : GitHubRepoInfo)
    (readme : Option GitHubReadmeInfo)
    (licenseRes : Option (Option GitHubLicense))
    (community : Option GitHubCommunityProfile)
    (languages : Option GitHubLanguageStats)
    (tree : Option (List GitHubTreeItem))
    (issues : Option (List GitHubIssue))
    (prs : Option (List GitHubPullRequest))
    (releases : Option (List GitHubRelease))
    (branches : Option (List GitHubBranch))
    (now : ℤ) : ProjectEvaluationData :=
  let closed_issues_count : ℕ := match issues with
    | some il => (il.filter (fun i => i.state == "closed")).length
    | none => 0
  let issue_comments_total : ℕ := match issues with
    | some il => (il.map (fun i => i.comments)).sum
    | none => 0
  let total_prs : ℕ := match prs with
    | some pl => pl.length
    | none => 0
  let merged_prs : ℕ := match prs with
    | some pl => (pl.filter (fun p => p.merged)).length
    | none => 0
  let pr_comments_total : ℕ := match prs with
    | some pl => (pl.map (fun p => p.comments)).sum
    | none => 0
  let age_in_days : ℤ := match ri.created_at with
    | some c => tdays (now - c)
    | none => 0
  { owner := ri.owner
    repo := ri.repo
    full_name := ri.full_name
    description := some ri.description
    url := ri.url
    created_at := ri.created_at.getD now
    updated_at := ri.updated_at.getD now
    has_readme := readme.isSome
    readme_length := match readme with
      | some r => r.content.length
      | none => 0
    has_license := match licenseRes with
      | some (some _) => true
      | _ => false
    license_name := match licenseRes with
      | some (some l) => some l.name
      | _ => none
    has_contributing := match community with
      | some c => c.has_contributing
      | none => false
    has_code_of_conduct := match community with
      | some c => c.has_code_of_conduct
      | none => false
    primary_language := match languages with
      | some ls => ls.primary_language
      | none => ri.language
    language_count := match languages with
      | some ls => ls.language_count
      | none => if pyTruthyStr ri.language then 1 else 0
    language_distribution := match languages with
      | some ls => ls.language_percentages
      | none => match ri.language with
        | some lang => if lang == "" then [] else [(lang, 100)]
        | none => []
    has_standard_dirs := match tree with
      | some items => decide (2 ≤
          ((((items.filter (fun it => it.type == "tree")).map
              (fun it => ((it.path.splitOn "/").getLastD "").toLower)).filter
            (fun n => standard_dirs.contains n)).dedup).length)
      | none => false
    protected_branches := match branches with
      | some bl => (bl.filter (fun b => b.is_protected)).length
      | none => 0
    release_count := match releases with
      | some rs => rs.length
      | none => 0
    releases_last_year := match releases with
      | some rs => (rs.filter (fun r => match r.published_at with
          | some t => decide (now - 365 * 86400 < t)
          | none => false)).length
      | none => 0
    open_issues := ri.issues
    closed_issues := closed_issues_count
    issue_comments_total := issue_comments_total
    issue_comments_avg :=
      if 0 < ri.issues + closed_issues_count then
        (issue_comments_total : ℚ) / ((max 1 (ri.issues + closed_issues_count) : ℕ) : ℚ)
      else 0
    total_prs := total_prs
    merged_prs := merged_prs
    pr_comments_total := pr_comments_total
    pr_comment_density :=
      if 0 < merged_prs then
        ((issue_comments_total + pr_comments_total : ℕ) : ℚ) / ((max 1 merged_prs : ℕ) : ℚ)
      else 0
    stars := ri.stars
    forks := ri.forks
    contributors := ri.contributors
    age_in_days := age_in_days
    maintained_for_years := match ri.updated_at with
      | some u => max 0 (((age_in_days - tdays (now - u) : ℤ) : ℚ) / 365)
      | none => 0
    commits_confidence := "high" }

/-- `GitHubProjectEvaluator._collect_data` (evaluator.py:171-450) after the
mandatory `get_repo_info` call succeeded, as a function of the optional
facet results.  The one unguarded exception of the reduction phase is
`license_info.name` on a successful license call that returned `None`
(evaluator.py:265 evaluates `None.name`, an `AttributeError`), modelled by
the `some none` branch. -/
def collectData (ri : GitHubRepoInfo)
    (readme : Option GitHubReadmeInfo)
    (licenseRes : Option (Option GitHubLicense))
    (community : Option GitHubCommunityProfile)
    (languages : Option GitHubLanguageStats)
    (tree : Option (List GitHubTreeItem))
    (issues : Option (List GitHubIssue))
    (prs : Option (List GitHubPullRequest))
    (releases : Option (List GitHubRelease))
    (branches : Option (List GitHubBranch))
    (now : ℤ) : Option ProjectEvaluationData :=
  match licenseRes with
  | some none => none
  | _ => some (mkRecord ri readme licenseRes community languages tree issues prs
      releases branches now)

/-! ## Shared concrete inputs -/

/-- An all-zero/all-false well-formed MetricsRecord, used as the base of the
concrete records below. -/
def baseRecord : ProjectEvaluationData :=
  { owner := "o", repo := "r", full_name := "o/r", description := none, url := "u"
    created_at := 0, updated_at := 0, has_readme := false, readme_length := 0
    has_license := false, license_name := none, has_contributing := false
    has_code_of_conduct := false, primary_language := none, language_count := 0
    language_distribution := [], has_standard_dirs := false, protected_branches := 0
    release_count := 0, releases_last_year := 0, open_issues := 0, closed_issues := 0
    issue_comments_total := 0, issue_comments_avg := 0, total_prs := 0, merged_prs := 0
    pr_comments_total := 0, pr_comment_density := 0, stars := 0, forks := 0
    contributors := 0, age_in_days := 0, maintained_for_years := 0
    commits_confidence := "high" }

/-- The record of the percentage counterexample: 2 open and 1 closed
issue, everything else zero/false. -/
def c3Record : ProjectEvaluationData :=
  { baseRecord with open_issues := 2, closed_issues := 1 }

/-- A minimal successful mandatory-call result. -/
def baseRepoInfo : GitHubRepoInfo :=
  { owner := "o", repo := "r", full_name := "o/r", url := "u", description := ""
    stars := 0, language := none, contributors := 0, issues := 0, forks := 0
    created_at := none, updated_at := none }

/-- A mandatory-call result whose repository has 7 stars and a primary
language. -/
def c2RepoInfo : GitHubRepoInfo :=
  { baseRepoInfo with language := some "Go", stars := 7 }

/-! ## Claims -/

/-- C9: for every MetricsRecord with `stars = 0` and `open_issues = 0`, the
activity dimension's open-issue-health sub-score takes the zero-star
zero-open-issue special case and awards full credit (4.4 points), and the
checked variant confirms that no division error occurs. -/
theorem activity_open_issue_health_zero_stars (d : ProjectEvaluationData)
    (h1 : d.stars = 0) (h2 : d.open_issues = 0) :
    openIssuesHealthScore d = 44/10 ∧ openIssuesHealthScoreE d = some (44/10) := by
  unfold openIssuesHealthScore openIssuesHealthScoreE
  rw [h1, h2]
  norm_num

/-- C9 witness: the claim's example record `stars=0, forks=5, open_issues=0`. -/
theorem activity_open_issue_health_zero_stars_witness :
    openIssuesHealthScore { baseRecord with forks := 5 } = 44/10 ∧
      openIssuesHealthScoreE { baseRecord with forks := 5 } = some (44/10) :=
  activity_open_issue_health_zero_stars { baseRecord with forks := 5 } rfl rfl

/-- C10: `LRUCache.get` on an absent key returns `None` and leaves the cache
state (hence `get_stats`) completely unchanged. -/
theorem lruCache_miss_is_pure_read {V : Type} (c : LRUCache V) (k : String)
    (now : ℤ) (h : c.cache.lookup k = none) :
    c.get k now = (none, c) ∧ ((c.get k now).2).get_stats = c.get_stats := by
  unfold LRUCache.get
  rw [h]
  exact ⟨rfl, rfl⟩

/-- C10 witness: a concrete one-entry cache queried at an absent key. -/
theorem lruCache_miss_is_pure_read_witness :
    (LRUCache.get ⟨100, 1800, [("a", ⟨(5 : ℕ), 0, 1800⟩)]⟩ "b" 60
        = (none, ⟨100, 1800, [("a", ⟨(5 : ℕ), 0, 1800⟩)]⟩)) ∧
      ((LRUCache.get ⟨100, 1800, [("a", ⟨(5 : ℕ), 0, 1800⟩)]⟩ "b" 60).2).get_stats
        = LRUCache.get_stats ⟨100, 1800, [("a", ⟨(5 : ℕ), 0, 1800⟩)]⟩ :=
  lruCache_miss_is_pure_read ⟨100, 1800, [("a", ⟨(5 : ℕ), 0, 1800⟩)]⟩ "b" 60 rfl

/-- A found key's erasure shortens the dictionary by exactly one entry. -/
theorem lookup_length_eraseKey {V : Type} (l : List (String × CacheEntry V))
    (k : String) (e : CacheEntry V) (h : l.lookup k = some e) :
    (eraseKey l k).length + 1 = l.length := by
  induction l with
  | nil => simp [List.lookup] at h
  | cons a t ih =>
    by_cases hk : k = a.1
    · have hbeq : (a.1 == k) = true := beq_iff_eq.mpr hk.symm
      simp [eraseKey, List.eraseP_cons, hbeq]
    · have hbeq : (k == a.1) = false := beq_eq_false_iff_ne.mpr hk
      have hbeq' : (a.1 == k) = false := beq_eq_false_iff_ne.mpr (Ne.symm hk)
      rw [List.lookup, hbeq] at h
      have ht := ih h
      simp only [eraseKey] at ht
      simp only [eraseKey, List.eraseP_cons, hbeq', cond_false, List.length_cons]
      omega

/-- C6: `LRUCache.get` on a present key whose entry has outlived its TTL
returns `None` and removes the entry (the subsequent `get_stats().size` is
one smaller); a hit within the TTL returns the stored value and moves the
key to the most-recently-used end. -/
theorem lruCache_get_expiry_and_refresh {V : Type} (c : LRUCache V) (k : String)
    (now : ℤ) (e : CacheEntry V) (h : c.cache.lookup k = some e) :
    (e.is_expired now = true →
      c.get k now = (none, { c with cache := eraseKey c.cache k }) ∧
        ((c.get k now).2.get_stats).size + 1 = (c.get_stats).size) ∧
    (e.is_expired now = false →
      c.get k now = (some e.value, { c with cache := eraseKey c.cache k ++ [(k, e)] }) ∧
        ((c.get k now).2.cache).getLast? = some (k, e)) := by
  have hlen := lookup_length_eraseKey c.cache k e h
  constructor
  · intro hexp
    have hget : c.get k now = (none, { c with cache := eraseKey c.cache k }) := by
      simp only [LRUCache.get, h]
      rw [hexp]
      simp
    refine ⟨hget, ?_⟩
    rw [hget]
    simp only [LRUCache.get_stats]
    omega
  · intro hexp
    have hget : c.get k now
        = (some e.value, { c with cache := eraseKey c.cache k ++ [(k, e)] }) := by
      simp only [LRUCache.get, h]
      rw [hexp]
      simp
    refine ⟨hget, ?_⟩
    rw [hget]
    simp

/-- C6 witness: a one-entry cache (TTL 1800s, inserted at time 0) queried at
time 5000 (expired: removed, size drops to 0) and at time 100 (live hit,
moved to the most-recently-used end). -/
theorem lruCache_get_expiry_and_refresh_witness :
    ((LRUCache.get ⟨100, 1800, [("a", ⟨(7 : ℕ), 0, 1800⟩)]⟩ "a" 5000 = (none, ⟨100, 1800, eraseKey [("a", ⟨(7 : ℕ), 0, 1800⟩)] "a"⟩))
      ∧ (((LRUCache.get ⟨100, 1800, [("a", ⟨(7 : ℕ), 0, 1800⟩)]⟩ "a" 5000).2.get_stats).size + 1 = ((⟨100, 1800, [("a", ⟨(7 : ℕ), 0, 1800⟩)]⟩ : LRUCache ℕ).get_stats).size))
    ∧ ((LRUCache.get ⟨100, 1800, [("a", ⟨(7 : ℕ), 0, 1800⟩)]⟩ "a" 100 = (some 7, ⟨100, 1800, eraseKey [("a", ⟨(7 : ℕ), 0, 1800⟩)] "a" ++ [("a", ⟨(7 : ℕ), 0, 1800⟩)]⟩))
      ∧ (((LRUCache.get ⟨100, 1800, [("a", ⟨(7 : ℕ), 0, 1800⟩)]⟩ "a" 100).2.cache).getLast? = some ("a", ⟨(7 : ℕ), 0, 1800⟩))) :=
  ⟨(lruCache_get_expiry_and_refresh ⟨100, 1800, [("a", ⟨(7 : ℕ), 0, 1800⟩)]⟩ "a" 5000
      ⟨7, 0, 1800⟩ rfl).1 rfl,
   (lruCache_get_expiry_and_refresh ⟨100, 1800, [("a", ⟨(7 : ℕ), 0, 1800⟩)]⟩ "a" 100
      ⟨7, 0, 1800⟩ rfl).2 rfl⟩

/-- A key absent from the dictionary is not found by `lookup`. -/
theorem lookup_none_of_not_mem {V : Type} (l : List (String × CacheEntry V))
    (k : String) (h : k ∉ l.map Prod.fst) : l.lookup k = none := by
  induction l with
  | nil => rfl
  | cons a t ih =>
    simp only [List.map_cons, List.mem_cons, not_or] at h
    have hbeq : (k == a.1) = false := beq_eq_false_iff_ne.mpr h.1
    rw [List.lookup, hbeq]
    exact ih h.2

/-- The eviction loop does nothing when occupancy is within capacity. -/
theorem evictLRU_of_le {V : Type} {m : ℕ} {l : List (String × CacheEntry V)}
    (h : l.length ≤ m) : evictLRU m l = l := by
  cases l with
  | nil => rfl
  | cons x t =>
    unfold evictLRU
    rw [if_neg (by omega : ¬ m < (x :: t).length)]

/-- The eviction loop leaves `min m (length l)` entries. -/
theorem evictLRU_length {V : Type} (m : ℕ) (l : List (String × CacheEntry V)) :
    (evictLRU m l).length = min m l.length := by
  induction l with
  | nil => simp [evictLRU]
  | cons x t ih =>
    unfold evictLRU
    by_cases h : m < (x :: t).length
    · rw [if_pos h, ih]
      simp only [List.length_cons] at h ⊢
      omega
    · rw [if_neg h]
      simp only [List.length_cons] at h ⊢
      omega

/-- One entry over capacity: the eviction loop drops exactly the head (the
least recently used entry). -/
theorem evictLRU_of_succ {V : Type} {m : ℕ} {l : List (String × CacheEntry V)}
    (h : l.length = m + 1) : evictLRU m l = l.tail := by
  cases l with
  | nil => simp at h
  | cons x t =>
    unfold evictLRU
    rw [if_pos (by omega : m < (x :: t).length)]
    have : t.length ≤ m := by simp at h; omega
    simp [evictLRU_of_le this]

/-- A sequence of `LRUCache.set` calls, one per key/value pair in order. -/
def setAll {V : Type} (c : LRUCache V) (kvs : List (String × V)) (now : ℤ) :
    LRUCache V :=
  kvs.foldl (fun acc kv => acc.set kv.1 kv.2 now) c

/-- `set` of a fresh key into a cache with room appends at the
most-recently-used end and evicts nothing. -/
theorem set_append_of_room {V : Type} (c : LRUCache V) (k : String) (v : V)
    (now : ℤ) (hk : k ∉ c.cache.map Prod.fst) (hroom : c.cache.length < c.max_size) :
    c.set k v now = { c with cache := c.cache ++ [(k, ⟨v, now, c.ttl_seconds⟩)] } := by
  unfold LRUCache.set
  rw [lookup_none_of_not_mem _ _ hk]
  simp only [Option.isSome_none, Bool.false_eq_true, if_false]
  rw [evictLRU_of_le (by simp; omega)]

/-- Filling distinct keys into a cache with enough room appends them in
insertion order with no eviction. -/
theorem setAll_no_evict {V : Type} :
    ∀ (kvs : List (String × V)) (c : LRUCache V) (now : ℤ),
      (c.cache.map Prod.fst ++ kvs.map Prod.fst).Nodup →
      c.cache.length + kvs.length ≤ c.max_size →
      (setAll c kvs now).cache
        = c.cache ++ kvs.map (fun kv => (kv.1, (⟨kv.2, now, c.ttl_seconds⟩ : CacheEntry V)))
  | [], c, now, _, _ => by simp [setAll]
  | kv :: rest, c, now, hnd, hlen => by
    have hk : kv.1 ∉ c.cache.map Prod.fst := by
      intro hmem
      rcases List.nodup_append.mp hnd with ⟨_, _, hdisj⟩
      exact hdisj hmem (by simp)
    have hroom : c.cache.length < c.max_size := by
      simp only [List.length_cons] at hlen; omega
    have hstep := set_append_of_room c kv.1 kv.2 now hk hroom
    have hrec := setAll_no_evict rest (c.set kv.1 kv.2 now) now (by
        rw [hstep]
        simp only [List.map_append, List.map_cons, List.map_nil]
        have : (c.cache.map Prod.fst ++ [kv.1]) ++ rest.map Prod.fst
            = c.cache.map Prod.fst ++ (kv.1 :: rest.map Prod.fst) := by
          simp
        rw [this]
        simpa using hnd)
      (by rw [hstep]; simp only [List.length_append, List.length_cons] at hlen ⊢; simp; omega)
    have : setAll c (kv :: rest) now = setAll (c.set kv.1 kv.2 now) rest now := rfl
    rw [this, hrec, hstep]
    simp

/-- `set` and `setAll` never change the configured capacity or TTL. -/
theorem setAll_config {V : Type} :
    ∀ (kvs : List (String × V)) (c : LRUCache V) (now : ℤ),
      (setAll c kvs now).max_size = c.max_size
        ∧ (setAll c kvs now).ttl_seconds = c.ttl_seconds
  | [], _, _ => ⟨rfl, rfl⟩
  | _ :: rest, _, now => setAll_config rest _ now

/-- C7: starting from an empty cache of capacity `max_size`, inserting
`max_size + 1` distinct keys with no intervening reads evicts exactly the
first-inserted key and leaves the other keys present in insertion order;
and after every `set`, occupancy never exceeds the configured capacity (the
least-recently-used entries having been evicted while it did). -/
theorem lruCache_eviction {V : Type} (maxSize : ℕ) (ttl : ℤ) (now : ℤ)
    (kvs : List (String × V)) (hnd : (kvs.map Prod.fst).Nodup)
    (hlen : kvs.length = maxSize + 1) :
    ((setAll (LRUCache.empty V maxSize ttl) kvs now).cache.map Prod.fst
        = (kvs.map Prod.fst).tail)
    ∧ ∀ (c : LRUCache V) (k : String) (v : V) (t : ℤ),
        (c.set k v t).cache.length ≤ c.max_size := by
  constructor
  · have hne : kvs ≠ [] := by intro h; rw [h] at hlen; simp at hlen
    have hsplit := List.dropLast_append_getLast hne
    set F := kvs.dropLast with hF
    set x := kvs.getLast hne with hx
    have hFlen : F.length = maxSize := by
      rw [hF, List.length_dropLast, hlen]; rfl
    have hkeys : kvs.map Prod.fst = F.map Prod.fst ++ [x.1] := by
      rw [← hsplit]; simp
    have hndsplit := hnd
    rw [hkeys] at hndsplit
    rcases List.nodup_append.mp hndsplit with ⟨hndF, _, hdisj⟩
    have hfill := setAll_no_evict F (LRUCache.empty V maxSize ttl) now
      (by simpa [LRUCache.empty] using hndF) (by simp [LRUCache.empty]; omega)
    have hsetall : setAll (LRUCache.empty V maxSize ttl) kvs now
        = (setAll (LRUCache.empty V maxSize ttl) F now).set x.1 x.2 now := by
      conv_lhs => rw [← hsplit]
      unfold setAll
      rw [List.foldl_append]
      rfl
    set A := setAll (LRUCache.empty V maxSize ttl) F now with hA
    obtain ⟨hAmax, _⟩ := setAll_config F (LRUCache.empty V maxSize ttl) now
    have hAcache : A.cache
        = F.map (fun kv => (kv.1, (⟨kv.2, now, ttl⟩ : CacheEntry V))) := by
      rw [hA, hfill]; rfl
    have hAkeys : A.cache.map Prod.fst = F.map Prod.fst := by
      rw [hAcache, List.map_map]; rfl
    have hxF : x.1 ∉ A.cache.map Prod.fst := by
      rw [hAkeys]
      intro hmem
      exact hdisj hmem (by simp)
    have hover : (A.cache
        ++ [(x.1, ({ value := x.2, timestamp := now, ttl := A.ttl_seconds }
              : CacheEntry V))]).length = A.max_size + 1 := by
      rw [List.length_append, hAcache, List.length_map, hFlen, hAmax]
      rfl
    have hstep : (A.set x.1 x.2 now).cache
        = (A.cache ++ [(x.1, ({ value := x.2, timestamp := now, ttl := A.ttl_seconds }
            : CacheEntry V))]).tail := by
      unfold LRUCache.set
      simp only
      rw [lookup_none_of_not_mem _ _ hxF]
      simp only [Option.isSome_none, Bool.false_eq_true, if_false]
      rw [evictLRU_of_succ hover]
    have hmaptail : ∀ (l : List (String × CacheEntry V)),
        (l.tail).map Prod.fst = (l.map Prod.fst).tail := by
      intro l; cases l <;> rfl
    rw [hsetall, hstep, hmaptail, List.map_append, hAkeys]
    simp only [List.map_cons, List.map_nil]
    rw [← hkeys]
  · intro c k v t
    unfold LRUCache.set
    simp only
    rw [evictLRU_length]
    omega

/-- C7 witness: capacity 2, three distinct keys inserted into an empty
cache; the first key is evicted, and a concrete `set` never leaves more
than the capacity. -/
theorem lruCache_eviction_witness :
    ((setAll (LRUCache.empty ℕ 2 1800) [("a", 1), ("b", 2), ("c", 3)] 0).cache.map Prod.fst
        = ([("a", (1 : ℕ)), ("b", 2), ("c", 3)].map Prod.fst).tail)
    ∧ ((LRUCache.empty ℕ 2 1800).set "x" 9 5).cache.length
        ≤ (LRUCache.empty ℕ 2 1800).max_size :=
  ⟨(lruCache_eviction 2 1800 0 [("a", 1), ("b", 2), ("c", 3)] (by decide) rfl).1,
   (lruCache_eviction 2 1800 0 [("a", 1), ("b", 2), ("c", 3)] (by decide) rfl).2
      (LRUCache.empty ℕ 2 1800) "x" 9 5⟩

/-- The guarded issue-close-rate division never hits a zero denominator. -/
theorem issueCloseScoreE_eq (d : ProjectEvaluationData) :
    issueCloseScoreE d = some (issueCloseScore d) := by
  unfold issueCloseScoreE issueCloseScore odiv
  by_cases h : 0 < d.open_issues + d.closed_issues
  · have hpos : (0 : ℚ) < (d.open_issues : ℚ) + (d.closed_issues : ℚ) := by
      exact_mod_cast h
    rw [if_pos h, if_pos h, if_neg hpos.ne']
    rfl
  · rw [if_neg h, if_neg h]

/-- The guarded PR-merge-rate division never hits a zero denominator. -/
theorem prMergeScoreE_eq (d : ProjectEvaluationData) :
    prMergeScoreE d = some (prMergeScore d) := by
  unfold prMergeScoreE prMergeScore odiv
  by_cases h : 0 < d.total_prs
  · have hpos : (0 : ℚ) < (d.total_prs : ℚ) := by exact_mod_cast h
    rw [if_pos h, if_pos h, if_neg hpos.ne']
    rfl
  · rw [if_neg h, if_neg h]

/-- The open-issue-health ratio divides by `max(1, stars)`, never zero. -/
theorem openIssuesHealthScoreE_eq (d : ProjectEvaluationData) :
    openIssuesHealthScoreE d = some (openIssuesHealthScore d) := by
  unfold openIssuesHealthScoreE openIssuesHealthScore odiv
  by_cases h : 0 < d.stars
  · have hpos : (0 : ℚ) < ((max 1 d.stars : ℕ) : ℚ) := by
      have : 0 < max 1 d.stars := by omega
      exact_mod_cast this
    rw [if_pos h, if_pos h, if_neg hpos.ne']
    rfl
  · rw [if_neg h, if_neg h]

/-- Checked and unchecked `calculate_activity` agree: the method never
raises. -/
theorem calculate_activityE_eq (d : ProjectEvaluationData) (now : ℤ) :
    calculate_activityE d now = some (calculate_activity d now) := by
  unfold calculate_activityE
  rw [issueCloseScoreE_eq, prMergeScoreE_eq, openIssuesHealthScoreE_eq]
  rfl

/-- The stars logarithm's argument `stars + 1` is always positive. -/
theorem starsScoreE_eq (d : ProjectEvaluationData) :
    starsScoreE d = some (starsScore d) := by
  unfold starsScoreE starsScore rlog10
  by_cases h : 0 < d.stars
  · rw [if_pos h, if_pos h, if_pos (by positivity : (0:ℝ) < (d.stars : ℝ) + 1)]
    rfl
  · rw [if_neg h, if_neg h]

/-- The forks logarithm's argument `forks + 1` is always positive. -/
theorem forksScoreE_eq (d : ProjectEvaluationData) :
    forksScoreE d = some (forksScore d) := by
  unfold forksScoreE forksScore rlog10
  by_cases h : 0 < d.forks
  · rw [if_pos h, if_pos h, if_pos (by positivity : (0:ℝ) < (d.forks : ℝ) + 1)]
    rfl
  · rw [if_neg h, if_neg h]

/-- The contributors logarithm's argument is always positive. -/
theorem contributorsScoreE_eq (d : ProjectEvaluationData) :
    contributorsScoreE d = some (contributorsScore d) := by
  unfold contributorsScoreE contributorsScore rlog10
  by_cases h : 0 < d.contributors
  · rw [if_pos h, if_pos h, if_pos (by positivity : (0:ℝ) < (d.contributors : ℝ) + 1)]
    rfl
  · rw [if_neg h, if_neg h]

/-- The guarded PR-review merge-rate division never hits zero. -/
theorem prReviewScoreE_eq (d : ProjectEvaluationData) :
    prReviewScoreE d = some (prReviewScore d) := by
  unfold prReviewScoreE prReviewScore odiv
  by_cases h : 0 < d.total_prs
  · have hpos : (0 : ℚ) < (d.total_prs : ℚ) := by exact_mod_cast h
    rw [if_pos h, if_pos h, if_neg hpos.ne']
    rfl
  · rw [if_neg h, if_neg h]

/-- The guarded star/fork-ratio division never hits zero. -/
theorem starForkRatioScoreE_eq (d : ProjectEvaluationData) :
    starForkRatioScoreE d = some (starForkRatioScore d) := by
  unfold starForkRatioScoreE starForkRatioScore odiv
  by_cases h : 0 < d.forks
  · have hpos : (0 : ℚ) < (d.forks : ℚ) := by exact_mod_cast h
    rw [if_pos h, if_pos h, if_neg hpos.ne']
    rfl
  · rw [if_neg h, if_neg h]

/-- Checked and unchecked `calculate_community_health` agree: the method
never raises. -/
theorem calculate_community_healthE_eq (d : ProjectEvaluationData) :
    calculate_community_healthE d = some (calculate_community_health d) := by
  unfold calculate_community_healthE
  rw [starsScoreE_eq, forksScoreE_eq, contributorsScoreE_eq, prReviewScoreE_eq,
    starForkRatioScoreE_eq]
  rfl

/-- C8: for every well-formed MetricsRecord (including an all-zero/all-false
one) and calling instant, the scorer raises no exception: the checked
`calculate_scores` returns the pure result, the one unconditional division
of `generate_strengths_and_weaknesses` is guarded by `max(1, ·)`, and
`get_rating` / `generate_recommendation` terminate with one of their six
fixed outputs. -/
theorem scorer_never_raises (d : ProjectEvaluationData) (now : ℤ) :
    (calculate_scoresE d now = some (calculate_scores d now))
    ∧ (generate_strengths_and_weaknessesE d (calculate_code_quality d now)
          (calculate_activity d now) (calculate_community_health d)
        = some (generate_strengths_and_weaknesses d (calculate_code_quality d now)
          (calculate_activity d now) (calculate_community_health d)))
    ∧ (get_rating (((calculate_code_quality d now).score : ℝ)
          + ((calculate_activity d now).score : ℝ)
          + (calculate_community_health d).score)
        ∈ ["A+ (优秀)", "A (良好)", "B+ (中上)", "B (中等)", "C (一般)", "D (较差)"])
    ∧ (generate_recommendation (((calculate_code_quality d now).score : ℝ)
          + ((calculate_activity d now).score : ℝ)
          + (calculate_community_health d).score)
        ∈ ["✅ **强烈推荐** - 这是一个高质量、活跃维护的项目，代码质量有保障，社区健康，开发团队响应及时。非常适合在生产环境中使用，也是学习开源项目的优秀案例。",
           "✅ **推荐使用** - 这是一个良好维护的项目，具有较好的代码质量和社区支持。可以放心在生产环境中使用，但建议关注其更新动态。",
           "👍 **可以使用** - 这个项目总体不错，但在某些方面（如文档、活跃度或社区规模）还有改进空间。可以使用，但建议对关键功能进行充分测试。",
           "⚠️ **谨慎使用** - 这个项目有一定的实用价值，但在维护、文档或社区支持方面存在不足。如果使用，建议做好风险评估和备选方案准备。",
           "❌ **需要评估** - 这个项目可能存在明显的维护问题或其他风险因素。不建议在关键业务中使用，除非有充分的技术支持能力。",
           "❌ **不推荐** - 这个项目在多个方面存在问题，可能面临维护困难。不建议在生产环境中使用。"]) := by
  refine ⟨?_, ?_, ?_, ?_⟩
  · unfold calculate_scoresE
    rw [calculate_activityE_eq, calculate_community_healthE_eq]
    rfl
  · unfold generate_strengths_and_weaknessesE odiv
    have hpos : (0 : ℚ) < ((max 1 (d.open_issues + d.closed_issues) : ℕ) : ℚ) := by
      have : 0 < max 1 (d.open_issues + d.closed_issues) := by omega
      exact_mod_cast this
    rw [if_neg hpos.ne']
    rfl
  · unfold get_rating
    split_ifs <;> simp
  · unfold generate_recommendation
    split_ifs <;> simp

/-- C1 counterexample: the all-zero record scored at epoch second 0 and
again 400 days later yields different outputs (the freshness tiers of
`calculate_code_quality` and `calculate_activity` read the wall clock via
`datetime.now`, scorer.py:91 and scorer.py:193), refuting bit-identical
output for identical records across calling instants. -/
theorem calculate_scores_time_dependent_cex :
    calculate_scores baseRecord 0 ≠ calculate_scores baseRecord (86400 * 400) := by
  have hd1 : daysSinceUpdate baseRecord 0 = 0 := by decide
  have hd2 : daysSinceUpdate baseRecord (86400 * 400) = 400 := by decide
  have hraw1 : activityRaw baseRecord 0 = 97/5 := by
    unfold activityRaw
    rw [hd1]
    norm_num [releaseFreqScore, freshnessScore, issueCloseScore, prMergeScore,
      openIssuesHealthScore, baseRecord]
  have hraw2 : activityRaw baseRecord (86400 * 400) = 22/5 := by
    unfold activityRaw
    rw [hd2]
    norm_num [releaseFreqScore, freshnessScore, issueCloseScore, prMergeScore,
      openIssuesHealthScore, baseRecord]
  intro h
  have hact : (calculate_activity baseRecord 0).score
      = (calculate_activity baseRecord (86400 * 400)).score := by
    have hp := congrArg (fun p => p.2.1.score) h
    simpa [calculate_scores] using hp
  rw [show (calculate_activity baseRecord 0).score
        = roundTo1 (min 40 (activityRaw baseRecord 0)) from rfl,
     show (calculate_activity baseRecord (86400 * 400)).score
        = roundTo1 (min 40 (activityRaw baseRecord (86400 * 400))) from rfl,
     hraw1, hraw2,
     min_eq_right (by norm_num : (97/5 : ℚ) ≤ 40),
     min_eq_right (by norm_num : (22/5 : ℚ) ≤ 40)] at hact
  norm_num [roundTo1, rndHE] at hact

/-- C1 (amended): the scorer is a deterministic function of the record and
the current day count alone — two calls whose instants yield the same
`days_since_update` (in particular, two calls at the same instant) produce
identical output; wall-clock time enters only through that day count. -/
theorem calculate_scores_determined_by_day (d : ProjectEvaluationData)
    (t1 t2 : ℤ) (h : daysSinceUpdate d t1 = daysSinceUpdate d t2) :
    calculate_scores d t1 = calculate_scores d t2 := by
  unfold calculate_scores calculate_code_quality calculate_activity
    codeQualityRaw activityRaw
  rw [h]

/-- C1 witness: two distinct instants within the same day (0s and 3600s)
score the all-zero record identically. -/
theorem calculate_scores_determined_by_day_witness :
    calculate_scores baseRecord 0 = calculate_scores baseRecord 3600 :=
  calculate_scores_determined_by_day baseRecord 0 3600 (by decide)

/-- Every code-quality block awards a non-negative number of points. -/
theorem codeQualityRaw_nonneg (d : ProjectEvaluationData) (now : ℤ) :
    0 ≤ codeQualityRaw d now := by
  have h1 : 0 ≤ readmeScore d := by unfold readmeScore; split_ifs <;> norm_num
  have h2 : 0 ≤ licenseScore d := by unfold licenseScore; split_ifs <;> norm_num
  have h3 : 0 ≤ contributingScore d := by
    unfold contributingScore; split_ifs <;> norm_num
  have h4 : 0 ≤ codeOfConductScore d := by
    unfold codeOfConductScore; split_ifs <;> norm_num
  have h5 : 0 ≤ releaseMgmtScore d.releases_last_year := by
    unfold releaseMgmtScore; split_ifs <;> norm_num
  have h6 : 0 ≤ lastUpdateScore (daysSinceUpdate d now) := by
    unfold lastUpdateScore; split_ifs <;> norm_num
  have h7 : 0 ≤ branchProtectionScore d := by
    unfold branchProtectionScore
    split_ifs
    · exact le_min (by norm_num) (by positivity)
    · norm_num
  have h8 : 0 ≤ primaryLanguageScore d := by
    unfold primaryLanguageScore; split_ifs <;> norm_num
  have h9 : 0 ≤ languageCountScore d := by
    unfold languageCountScore; split_ifs <;> norm_num
  have h10 : 0 ≤ codeStructureScore d := by
    unfold codeStructureScore; split_ifs <;> norm_num
  unfold codeQualityRaw
  linarith

/-- Every activity block awards a non-negative number of points. -/
theorem activityRaw_nonneg (d : ProjectEvaluationData) (now : ℤ) :
    0 ≤ activityRaw d now := by
  have h1 : 0 ≤ releaseFreqScore d.releases_last_year := by
    unfold releaseFreqScore; split_ifs <;> norm_num
  have h2 : 0 ≤ freshnessScore (daysSinceUpdate d now) := by
    unfold freshnessScore; split_ifs <;> norm_num
  have h3 : 0 ≤ issueCloseScore d := by
    unfold issueCloseScore
    split_ifs
    · positivity
    · norm_num
  have h4 : 0 ≤ prMergeScore d := by
    unfold prMergeScore
    split_ifs
    · positivity
    · norm_num
  have h5 : 0 ≤ openIssuesHealthScore d := by
    unfold openIssuesHealthScore; split_ifs <;> norm_num
  unfold activityRaw
  linarith

/-- Every community-health block awards a non-negative number of points
(the logarithmic blocks because `log10(count + 1) ≥ 0`). -/
theorem communityRaw_nonneg (d : ProjectEvaluationData) : 0 ≤ communityRaw d := by
  have h1 : 0 ≤ starsScore d := by
    unfold starsScore
    split_ifs
    · exact le_min (by norm_num)
        (mul_nonneg (Real.logb_nonneg (by norm_num)
          (by have := Nat.cast_nonneg (α := ℝ) d.stars; linarith)) (by norm_num))
    · norm_num
  have h2 : 0 ≤ forksScore d := by
    unfold forksScore
    split_ifs
    · exact le_min (by norm_num)
        (mul_nonneg (Real.logb_nonneg (by norm_num)
          (by have := Nat.cast_nonneg (α := ℝ) d.forks; linarith)) (by norm_num))
    · norm_num
  have h3 : 0 ≤ contributorsScore d := by
    unfold contributorsScore
    split_ifs
    · exact le_min (by norm_num)
        (mul_nonneg (Real.logb_nonneg (by norm_num)
          (by have := Nat.cast_nonneg (α := ℝ) d.contributors; linarith)) (by norm_num))
    · norm_num
  have h4 : (0:ℚ) ≤ issueDiscussionScore d := by
    unfold issueDiscussionScore; split_ifs <;> norm_num
  have h5 : (0:ℚ) ≤ prReviewScore d := by
    unfold prReviewScore; split_ifs <;> norm_num
  have h6 : (0:ℚ) ≤ projectAgeScore d := by
    unfold projectAgeScore; split_ifs <;> norm_num
  have h7 : (0:ℚ) ≤ starForkRatioScore d := by
    unfold starForkRatioScore; split_ifs <;> norm_num
  have h8 : (0:ℚ) ≤ maintainedScore d := by
    unfold maintainedScore; split_ifs <;> norm_num
  have h4r : (0:ℝ) ≤ (issueDiscussionScore d : ℝ) := by exact_mod_cast h4
  have h5r : (0:ℝ) ≤ (prReviewScore d : ℝ) := by exact_mod_cast h5
  have h6r : (0:ℝ) ≤ (projectAgeScore d : ℝ) := by exact_mod_cast h6
  have h7r : (0:ℝ) ≤ (starForkRatioScore d : ℝ) := by exact_mod_cast h7
  have h8r : (0:ℝ) ≤ (maintainedScore d : ℝ) := by exact_mod_cast h8
  unfold communityRaw
  linarith

/-- C3 (amended): every dimension's stored `score` lies in `[0, max_score]`,
and `score` and `percentage` are the one-decimal roundings of the clamped
raw dimension score `f` and of `100·f/max` respectively — `percentage` is
computed from the pre-rounding `f`, not from the stored (already rounded)
`score`. -/
theorem dimension_score_bounds (d : ProjectEvaluationData) (now : ℤ) :
    ((0 ≤ (calculate_code_quality d now).score
      ∧ (calculate_code_quality d now).score ≤ (calculate_code_quality d now).max_score)
      ∧ (calculate_code_quality d now).score = roundTo1 (min 30 (codeQualityRaw d now))
      ∧ (calculate_code_quality d now).percentage
        = roundTo1 (min 30 (codeQualityRaw d now) / 30 * 100))
    ∧ ((0 ≤ (calculate_activity d now).score
      ∧ (calculate_activity d now).score ≤ (calculate_activity d now).max_score)
      ∧ (calculate_activity d now).score = roundTo1 (min 40 (activityRaw d now))
      ∧ (calculate_activity d now).percentage
        = roundTo1 (min 40 (activityRaw d now) / 40 * 100))
    ∧ ((0 ≤ (calculate_community_health d).score
      ∧ (calculate_community_health d).score ≤ (calculate_community_health d).max_score)
      ∧ (calculate_community_health d).score = roundTo1 (min 30 (communityRaw d))
      ∧ (calculate_community_health d).percentage
        = roundTo1 (min 30 (communityRaw d) / 30 * 100)) := by
  refine ⟨⟨⟨?_, ?_⟩, rfl, rfl⟩, ⟨⟨?_, ?_⟩, rfl, rfl⟩, ⟨⟨?_, ?_⟩, rfl, rfl⟩⟩
  · exact roundTo1_nonneg (le_min (by norm_num) (codeQualityRaw_nonneg d now))
  · have h := roundTo1_le (α := ℚ) (m := 30)
      (by push_cast; exact min_le_left 30 (codeQualityRaw d now))
    show roundTo1 (min 30 (codeQualityRaw d now)) ≤ (30:ℚ)
    exact_mod_cast h
  · exact roundTo1_nonneg (le_min (by norm_num) (activityRaw_nonneg d now))
  · have h := roundTo1_le (α := ℚ) (m := 40)
      (by push_cast; exact min_le_left 40 (activityRaw d now))
    show roundTo1 (min 40 (activityRaw d now)) ≤ (40:ℚ)
    exact_mod_cast h
  · exact roundTo1_nonneg (le_min (by norm_num) (communityRaw_nonneg d))
  · have h := roundTo1_le (α := ℝ) (m := 30)
      (by push_cast; exact min_le_left 30 (communityRaw d))
    show roundTo1 (min 30 (communityRaw d)) ≤ (30:ℝ)
    exact_mod_cast h

/-- C3 counterexample: for the record with 2 open and 1 closed issue scored
400 days after its last update, the activity score stores
`round(f,1) = 1.4` while `percentage = round(100·f/40,1) = 3.6`, whereas
the claim's formula `round(100·score/40,1)` yields `3.5`. -/
theorem dimension_percentage_cex :
    (calculate_activity c3Record (86400 * 400)).percentage
      ≠ roundTo1 (100 * (calculate_activity c3Record (86400 * 400)).score
          / (calculate_activity c3Record (86400 * 400)).max_score) := by
  have hd : daysSinceUpdate c3Record (86400 * 400) = 400 := by decide
  have hraw : activityRaw c3Record (86400 * 400) = 43/30 := by
    unfold activityRaw
    rw [hd]
    norm_num [releaseFreqScore, freshnessScore, issueCloseScore, prMergeScore,
      openIssuesHealthScore, c3Record, baseRecord]
  have hscore : (calculate_activity c3Record (86400 * 400)).score = 7/5 := by
    show roundTo1 (min 40 (activityRaw c3Record (86400 * 400))) = 7/5
    rw [hraw, min_eq_right (by norm_num : (43/30 : ℚ) ≤ 40)]
    norm_num [roundTo1, rndHE]
  have hperc : (calculate_activity c3Record (86400 * 400)).percentage = 18/5 := by
    show roundTo1 (min 40 (activityRaw c3Record (86400 * 400)) / 40 * 100) = 18/5
    rw [hraw, min_eq_right (by norm_num : (43/30 : ℚ) ≤ 40)]
    norm_num [roundTo1, rndHE]
  rw [hperc, hscore,
    show (calculate_activity c3Record (86400 * 400)).max_score = (40:ℚ) from rfl]
  norm_num [roundTo1, rndHE]

/-- C5 counterexample: at 4 releases/year the two ladders select bands at
different boundaries — code quality (thresholds 6/2/1) groups 4 with 2
(both 3 points), while activity (thresholds 6/4/2/1) puts 4 in its own
`≥ 4` band (10 points) apart from 2 (7 points). -/
theorem release_ladders_cex :
    ¬(releaseMgmtScore 4 = releaseMgmtScore 2
      ↔ releaseFreqScore 4 = releaseFreqScore 2) := by
  norm_num [releaseMgmtScore, releaseFreqScore]

/-- C5 (amended): the activity release-frequency ladder has four thresholds
(6, 4, 2, 1) but the code-quality maintenance ladder only three (6, 2, 1);
the activity banding refines the code-quality banding, and the two select
bands at identical boundaries exactly for release counts outside `[4, 6)`. -/
theorem release_ladders_partition (n m : ℕ) :
    (releaseFreqScore n = releaseFreqScore m
      → releaseMgmtScore n = releaseMgmtScore m)
    ∧ (¬(4 ≤ n ∧ n < 6) → ¬(4 ≤ m ∧ m < 6) →
        (releaseMgmtScore n = releaseMgmtScore m
          ↔ releaseFreqScore n = releaseFreqScore m)) := by
  unfold releaseMgmtScore releaseFreqScore
  constructor
  · split_ifs <;> (try norm_num) <;> omega
  · intro hn hm
    split_ifs <;> (try norm_num) <;> omega

/-- C5 witness: 7 and 9 releases/year (outside `[4,6)`) land in the same
band of both ladders. -/
theorem release_ladders_partition_witness :
    (releaseMgmtScore 7 = releaseMgmtScore 9)
    ∧ (releaseMgmtScore 7 = releaseMgmtScore 9
        ↔ releaseFreqScore 7 = releaseFreqScore 9) :=
  ⟨(release_ladders_partition 7 9).1 rfl,
   (release_ladders_partition 7 9).2 (by decide) (by decide)⟩

/-- C4 (amended): on every successfully collected record the stored
`pr_comment_density` is `(issue_comments_total + pr_comments_total) /
max(1, merged_prs)` when `merged_prs > 0`, and `0.0` (not the comment total)
when `merged_prs = 0` (evaluator.py:355 short-circuits to `0.0`). -/
theorem pr_comment_density_formula (ri : GitHubRepoInfo)
    (readme : Option GitHubReadmeInfo) (licenseRes : Option (Option GitHubLicense))
    (community : Option GitHubCommunityProfile) (languages : Option GitHubLanguageStats)
    (tree : Option (List GitHubTreeItem)) (issues : Option (List GitHubIssue))
    (prs : Option (List GitHubPullRequest)) (releases : Option (List GitHubRelease))
    (branches : Option (List GitHubBranch)) (now : ℤ) :
    (collectData ri readme licenseRes community languages tree issues prs releases
        branches now).map (fun d => d.pr_comment_density)
      = (collectData ri readme licenseRes community languages tree issues prs releases
        branches now).map (fun d =>
          if 0 < d.merged_prs then
            ((d.issue_comments_total + d.pr_comments_total : ℕ) : ℚ)
              / ((max 1 d.merged_prs : ℕ) : ℚ)
          else 0) := by
  cases licenseRes with
  | none => rfl
  | some o =>
    cases o with
    | none => rfl
    | some l => rfl

set_option maxHeartbeats 1000000 in
/-- C4 counterexample: a collection that found 5 issue comments but zero
merged PRs stores density `0.0`, while the claim's formula
`(issue_comments + pr_comments) / max(1, merged_prs)` demands `5`. -/
theorem pr_comment_density_cex :
    ((collectData baseRepoInfo none none none none none (some [⟨"open", 5⟩])
        (some []) none none 0).map (fun d => d.pr_comment_density) = some 0)
    ∧ ((collectData baseRepoInfo none none none none none (some [⟨"open", 5⟩])
        (some []) none none 0).map (fun d =>
          ((d.issue_comments_total + d.pr_comments_total : ℕ) : ℚ)
            / ((max 1 d.merged_prs : ℕ) : ℚ)) = some 5)
    ∧ (0 : ℚ) ≠ 5 := by
  refine ⟨rfl, ?_, by norm_num⟩
  show some (((5 + 0 : ℕ) : ℚ) / ((max 1 0 : ℕ) : ℚ)) = some 5
  norm_num

set_option maxHeartbeats 1000000 in
/-- C2 (amended): when the mandatory metadata call succeeds and every
optional facet call fails, collection does not raise and returns a record
whose booleans are all false and whose facet-derived counts (readme length,
releases, closed issues, comment totals, PRs, protected branches) and
derived ratios are all zero — but `open_issues`, `stars`, `forks` and
`contributors` retain the mandatory call's values, and `language_count`
falls back to 1 whenever the metadata names a primary language. -/
theorem collect_all_failures_fallbacks (ri : GitHubRepoInfo) (now : ℤ) :
    ((collectData ri none none none none none none none none none now).map
        (fun d => d.has_readme) = some false)
    ∧ ((collectData ri none none none none none none none none none now).map
        (fun d => d.readme_length) = some 0)
    ∧ ((collectData ri none none none none none none none none none now).map
        (fun d => d.has_license) = some false)
    ∧ ((collectData ri none none none none none none none none none now).map
        (fun d => d.has_contributing) = some false)
    ∧ ((collectData ri none none none none none none none none none now).map
        (fun d => d.has_code_of_conduct) = some false)
    ∧ ((collectData ri none none none none none none none none none now).map
        (fun d => d.has_standard_dirs) = some false)
    ∧ ((collectData ri none none none none none none none none none now).map
        (fun d => d.protected_branches) = some 0)
    ∧ ((collectData ri none none none none none none none none none now).map
        (fun d => d.release_count) = some 0)
    ∧ ((collectData ri none none none none none none none none none now).map
        (fun d => d.releases_last_year) = some 0)
    ∧ ((collectData ri none none none none none none none none none now).map
        (fun d => d.closed_issues) = some 0)
    ∧ ((collectData ri none none none none none none none none none now).map
        (fun d => d.issue_comments_total) = some 0)
    ∧ ((collectData ri none none none none none none none none none now).map
        (fun d => d.issue_comments_avg) = some 0)
    ∧ ((collectData ri none none none none none none none none none now).map
        (fun d => d.total_prs) = some 0)
    ∧ ((collectData ri none none none none none none none none none now).map
        (fun d => d.merged_prs) = some 0)
    ∧ ((collectData ri none none none none none none none none none now).map
        (fun d => d.pr_comments_total) = some 0)
    ∧ ((collectData ri none none none none none none none none none now).map
        (fun d => d.pr_comment_density) = some 0)
    ∧ ((collectData ri none none none none none none none none none now).map
        (fun d => d.open_issues) = some ri.issues)
    ∧ ((collectData ri none none none none none none none none none now).map
        (fun d => d.stars) = some ri.stars)
    ∧ ((collectData ri none none none none none none none none none now).map
        (fun d => d.forks) = some ri.forks)
    ∧ ((collectData ri none none none none none none none none none now).map
        (fun d => d.contributors) = some ri.contributors)
    ∧ ((collectData ri none none none none none none none none none now).map
        (fun d => d.language_count)
      = some (if pyTruthyStr ri.language then 1 else 0)) := by
  refine ⟨rfl, rfl, rfl, rfl, rfl, rfl, rfl, rfl, rfl, rfl, rfl, ?_, rfl, rfl, rfl,
    rfl, rfl, rfl, rfl, rfl, rfl⟩
  show some (if 0 < ri.issues + 0 then
      ((0:ℕ) : ℚ) / ((max 1 (ri.issues + 0) : ℕ) : ℚ) else 0) = some 0
  split_ifs <;> simp

/-- C2 counterexample: with every optional facet failed but a mandatory
result reporting 7 stars and a primary language, the returned record has
`stars = 7` and `language_count = 1` — numeric count fields that are not
zero. -/
theorem collect_all_failures_cex :
    ((collectData c2RepoInfo none none none none none none none none none 0).map
        (fun d => d.stars) = some 7)
    ∧ ((collectData c2RepoInfo none none none none none none none none none 0).map
        (fun d => d.language_count) = some 1)
    ∧ (7 : ℕ) ≠ 0 ∧ (1 : ℕ) ≠ 0 :=
  ⟨rfl, rfl, by decide, by decide⟩
